import Mathlib

/-!
Verification of the zai-core document reader
(`src/backend/python-ai/modules/zai_reader/zai_reader.py`) and its
background-task layer
(`src/backend/python-ai/modules/zai_reader/reader_api.py`).

The Python code is shallowly embedded: file contents are byte lists, the
filesystem is an explicit snapshot, text codecs are modelled at the byte
level, and each attribute assignment of the background task function is one
atomic step of an explicit state trace.
-/

namespace ZaiReader

/-- A byte of file content. -/
abbrev Byte := Fin 256

/-! ## Python text codecs

`_extract_plaintext` calls `open(file_path, "r", encoding=...)` and `read()`,
which decode the raw bytes with a named codec.  The codecs themselves live in
the Python standard library (outside this repository); they are modelled here
at the byte level: UTF-8 with full validation, Latin-1 as the total
byte-to-codepoint map, and Windows-1252 with its five undefined bytes
(0x81, 0x8D, 0x8F, 0x90, 0x9D). -/

/-- Is this byte a UTF-8 continuation byte (10xxxxxx)? -/
def isCont (b : Byte) : Bool := 0x80 ≤ b.val && b.val < 0xC0

/-- Fuelled UTF-8 decoder; fuel bounds the number of decoded code points.
Each step consumes at least one byte, so `fuel = length` always suffices. -/
def utf8DecodeAux : Nat → List Byte → Option (List Char)
  | _, [] => some []
  | 0, _ :: _ => none
  | fuel + 1, b :: rest =>
    if b.val < 0x80 then
      (utf8DecodeAux fuel rest).map (fun cs => Char.ofNat b.val :: cs)
    else if b.val < 0xC2 then none
    else if b.val < 0xE0 then
      match rest with
      | b2 :: rest2 =>
        if isCont b2 then
          (utf8DecodeAux fuel rest2).map
            (fun cs => Char.ofNat ((b.val - 0xC0) * 64 + (b2.val - 0x80)) :: cs)
        else none
      | [] => none
    else if b.val < 0xF0 then
      match rest with
      | b2 :: b3 :: rest3 =>
        if isCont b2 && isCont b3 &&
            !(b.val == 0xE0 && b2.val < 0xA0) && !(b.val == 0xED && 0xA0 ≤ b2.val) then
          (utf8DecodeAux fuel rest3).map
            (fun cs =>
              Char.ofNat ((b.val - 0xE0) * 4096 + (b2.val - 0x80) * 64 + (b3.val - 0x80)) :: cs)
        else none
      | _ => none
    else if b.val < 0xF5 then
      match rest with
      | b2 :: b3 :: b4 :: rest4 =>
        if isCont b2 && isCont b3 && isCont b4 &&
            !(b.val == 0xF0 && b2.val < 0x90) && !(b.val == 0xF4 && 0x90 ≤ b2.val) then
          (utf8DecodeAux fuel rest4).map
            (fun cs =>
              Char.ofNat ((b.val - 0xF0) * 262144 + (b2.val - 0x80) * 4096 +
                (b3.val - 0x80) * 64 + (b4.val - 0x80)) :: cs)
        else none
      | _ => none
    else none

/-- Decode a byte list as UTF-8; `none` on any invalid sequence
(mirrors a `UnicodeDecodeError` from Python's utf-8 codec). -/
def utf8Decode (bs : List Byte) : Option String :=
  (utf8DecodeAux bs.length bs).map (fun cs => String.mk cs)

/-- Latin-1 maps every byte to the code point of the same value; it never
fails. -/
def latin1Decode (bs : List Byte) : String :=
  String.mk (bs.map (fun b => Char.ofNat b.val))

/-- Windows-1252 mapping of a single byte; `none` exactly for the five
undefined bytes 0x81, 0x8D, 0x8F, 0x90, 0x9D. -/
def cp1252Char (b : Byte) : Option Char :=
  if b.val < 0x80 || 0xA0 ≤ b.val then some (Char.ofNat b.val)
  else
    match b.val with
    | 0x80 => some (Char.ofNat 0x20AC)
    | 0x82 => some (Char.ofNat 0x201A)
    | 0x83 => some (Char.ofNat 0x0192)
    | 0x84 => some (Char.ofNat 0x201E)
    | 0x85 => some (Char.ofNat 0x2026)
    | 0x86 => some (Char.ofNat 0x2020)
    | 0x87 => some (Char.ofNat 0x2021)
    | 0x88 => some (Char.ofNat 0x02C6)
    | 0x89 => some (Char.ofNat 0x2030)
    | 0x8A => some (Char.ofNat 0x0160)
    | 0x8B => some (Char.ofNat 0x2039)
    | 0x8C => some (Char.ofNat 0x0152)
    | 0x8E => some (Char.ofNat 0x017D)
    | 0x91 => some (Char.ofNat 0x2018)
    | 0x92 => some (Char.ofNat 0x2019)
    | 0x93 => some (Char.ofNat 0x201C)
    | 0x94 => some (Char.ofNat 0x201D)
    | 0x95 => some (Char.ofNat 0x2022)
    | 0x96 => some (Char.ofNat 0x2013)
    | 0x97 => some (Char.ofNat 0x2014)
    | 0x98 => some (Char.ofNat 0x02DC)
    | 0x99 => some (Char.ofNat 0x2122)
    | 0x9A => some (Char.ofNat 0x0161)
    | 0x9B => some (Char.ofNat 0x203A)
    | 0x9C => some (Char.ofNat 0x0153)
    | 0x9E => some (Char.ofNat 0x017E)
    | 0x9F => some (Char.ofNat 0x0178)
    | _ => none

/-- Decode a byte list as Windows-1252. -/
def cp1252Decode (bs : List Byte) : Option String :=
  (bs.mapM cp1252Char).map (fun cs => String.mk cs)

/-- A codec name as it reaches `open(..., encoding=...)`.  `utf8`, `latin1`
and `cp1252` are the codecs named in `_extract_plaintext`; `other` stands for
any other codec the caller may configure as `self.encoding` (its decode
behaviour is an arbitrary function; a codec name unknown to Python, which
raises `LookupError`, is `other (fun b => none)`). -/
inductive PyEncoding
  | utf8
  | latin1
  | cp1252
  | other (decodeFn : List Byte → Option String)

/-- Decoding result of one `open`/`read` attempt: `none` models the
`UnicodeDecodeError` / `LookupError` caught by `_extract_plaintext`. -/
def decodePy : PyEncoding → List Byte → Option String
  | .utf8, bs => utf8Decode bs
  | .latin1, bs => some (latin1Decode bs)
  | .cp1252, bs => cp1252Decode bs
  | .other f, bs => f bs

/-! ## Python string helpers used by the reader -/

/-- The whitespace characters of Python's `str.split()` (ASCII range). -/
def isPyWs (c : Char) : Bool :=
  c == ' ' || c == '\t' || c == '\n' || c == '\x0b' || c == '\x0c' || c == '\x0d'

/-- Helper for `pySplit`: accumulates the current (reversed) word. -/
def pySplitAux : List Char → List Char → List (List Char)
  | [], [] => []
  | [], cur => [cur.reverse]
  | c :: cs, cur =>
    if isPyWs c then
      match cur with
      | [] => pySplitAux cs []
      | _ :: _ => cur.reverse :: pySplitAux cs []
    else pySplitAux cs (c :: cur)

/-- Python's `str.split()` with no argument: split on whitespace runs,
dropping empty fields. -/
def pySplit (s : String) : List String :=
  (pySplitAux s.data []).map (fun l => String.mk l)

/-- `len(text.split())` — the word count computed in `_process_file`. -/
def pyWordCount (s : String) : Nat := (pySplit s).length

/-- Python's `str.lower()` restricted to the ASCII letters that occur in
file extensions. -/
def pyLower (s : String) : String := String.mk (s.data.map Char.toLower)

/-- Index of the last dot in a character list, if any. -/
def rfindDotIdx (cs : List Char) : Option Nat :=
  (List.range cs.length).foldl
    (fun acc i => if cs.get? i = some '.' then some i else acc) none

/-- `pathlib.PurePath.suffix`: the substring from the last dot, provided the
dot is neither the first nor the last character of the name; otherwise `""`. -/
def pySuffix (name : String) : String :=
  match rfindDotIdx name.data with
  | some i => if 0 < i ∧ i + 1 < name.data.length then String.mk (name.data.drop i) else ""
  | none => ""

/-- Name matches the glob pattern `*<ext>`: the extension string is a literal
(case-sensitive on a POSIX filesystem) suffix of the file name. -/
def endsWithExt (name ext : String) : Bool :=
  ext.data.isSuffixOf name.data

/-! ## Filesystem snapshot -/

/-- One regular file visible to the scan, with everything the environment
determines about it: its base name, full path, size reported by `stat`, raw
bytes, and the outcome PyMuPDF would produce for it (`Except.ok text` = the
concatenated page texts of `fitz.open`/`get_text`, `Except.error msg` = the
exception raised by the library while opening or reading). -/
structure FileEntry where
  name : String
  path : String
  size : Nat
  bytes : List Byte
  pdfText : Except String String

/-- A fixed snapshot of the filesystem under the requested root path. -/
structure Snapshot where
  pathExists : Bool
  isDir : Bool
  files : List FileEntry

/-! ## DocumentReader (zai_reader.py) -/

/-- The per-document dictionary built at the end of `_process_file`
(also the `DocumentData` pydantic model of reader_api.py). -/
structure DocumentData where
  filename : String
  text : String
  words : Nat
  file_path : String
  file_size_bytes : Nat

/-- The mutable per-scan state of a `DocumentReader`:
`self.files_read` and `self.errors`. -/
structure ScanState where
  files_read : Nat
  errors : List String

/-- `_extract_plaintext`: try `[self.encoding, "utf-8", "latin-1", "cp1252"]`
in order, returning the text of the first codec that decodes; if the loop
falls through, raise a `UnicodeDecodeError` whose reason names the file. -/
def tryEncodings (bs : List Byte) : List PyEncoding → Option String
  | [] => none
  | e :: rest =>
    match decodePy e bs with
    | some t => some t
    | none => tryEncodings bs rest

/-- `DocumentReader._extract_plaintext` (zai_reader.py lines 227-256). -/
def extract_plaintext (selfEncoding : PyEncoding) (name : String) (bs : List Byte) :
    Except String String :=
  match tryEncodings bs [selfEncoding, .utf8, .latin1, .cp1252] with
  | some t => Except.ok t
  | none => Except.error ("Unable to decode " ++ name)

/-- The dictionary returned by `_process_file` on success. -/
def mkDoc (f : FileEntry) (text : String) : DocumentData :=
  { filename := f.name
    text := text
    words := pyWordCount text
    file_path := f.path
    file_size_bytes := f.size }

/-- `DocumentReader._process_file` (zai_reader.py lines 151-195).
`Except.error e` models a raised exception (caught per-file by
`scan_folder`); `Except.ok none` models `return None`.
The PDF branch: when `HAS_FITZ` is false the file is dropped with
`return None` (line 176); otherwise `_extract_pdf` either returns the
concatenated page text or re-raises the PyMuPDF exception (lines 211-225;
its own `HAS_FITZ` guard at lines 207-209 is unreachable from here). -/
def process_file (hasFitz : Bool) (max_file_size_mb : Nat) (selfEncoding : PyEncoding)
    (f : FileEntry) : Except String (Option DocumentData) :=
  if f.size > max_file_size_mb * 1024 * 1024 then
    Except.ok none
  else if pyLower (pySuffix f.name) = ".pdf" then
    if hasFitz = false then
      Except.ok none
    else
      match f.pdfText with
      | Except.ok text => Except.ok (some (mkDoc f text))
      | Except.error e => Except.error e
  else if pyLower (pySuffix f.name) = ".txt" ∨ pyLower (pySuffix f.name) = ".md" then
    match extract_plaintext selfEncoding f.name f.bytes with
    | Except.ok text => Except.ok (some (mkDoc f text))
    | Except.error e => Except.error e
  else
    Except.ok none

/-- One iteration of the `for file_path in files_to_process` loop of
`scan_folder` (lines 129-138): append the document and bump `files_read`
on success, do nothing on `None`, record
`"Error processing <name>: <msg>"` on an exception. -/
def scanStep (hasFitz : Bool) (max_file_size_mb : Nat) (selfEncoding : PyEncoding)
    (acc : List DocumentData × ScanState) (f : FileEntry) :
    List DocumentData × ScanState :=
  match process_file hasFitz max_file_size_mb selfEncoding f with
  | Except.ok (some d) =>
    (acc.1 ++ [d], { acc.2 with files_read := acc.2.files_read + 1 })
  | Except.ok none => acc
  | Except.error e =>
    (acc.1, { acc.2 with errors := acc.2.errors ++ ["Error processing " ++ f.name ++ ": " ++ e] })

/-- The whole per-file loop of `scan_folder` as a fold. -/
def scanFiles (hasFitz : Bool) (max_file_size_mb : Nat) (selfEncoding : PyEncoding)
    (files : List FileEntry) (acc : List DocumentData × ScanState) :
    List DocumentData × ScanState :=
  files.foldl (scanStep hasFitz max_file_size_mb selfEncoding) acc

/-- Candidate enumeration of `scan_folder` (lines 120-125):
`folder_path.glob("**/*.txt")`, then `"**/*.md"`, then `"**/*.pdf"`, each
extended into one list.  `glob` on a POSIX path matches the literal pattern
case-sensitively, so each pattern selects the files whose name ends with the
exact lowercase extension, keeping the snapshot's enumeration order. -/
def files_to_process (files : List FileEntry) : List FileEntry :=
  files.filter (fun f => endsWithExt f.name ".txt") ++
    files.filter (fun f => endsWithExt f.name ".md") ++
    files.filter (fun f => endsWithExt f.name ".pdf")

/-- `DocumentReader.scan_folder` (lines 76-149): raise `ValueError` if the
root is missing or not a directory, otherwise reset the per-scan state and
fold the per-file loop over the enumerated candidates. -/
def scan_folder (hasFitz : Bool) (max_file_size_mb : Nat) (selfEncoding : PyEncoding)
    (snap : Snapshot) (folder_path : String) :
    Except String (List DocumentData × ScanState) :=
  if snap.pathExists = false then
    Except.error ("Folder path does not exist: " ++ folder_path)
  else if snap.isDir = false then
    Except.error ("Path is not a directory: " ++ folder_path)
  else
    Except.ok (scanFiles hasFitz max_file_size_mb selfEncoding
      (files_to_process snap.files) ([], { files_read := 0, errors := [] }))

/-- The dictionary returned by `DocumentReader.get_stats` (lines 258-269). -/
structure StatsDict where
  files_read : Nat
  errors_count : Nat
  errors : List String

/-- `DocumentReader.get_stats`. -/
def get_stats (st : ScanState) : StatsDict :=
  { files_read := st.files_read
    errors_count := st.errors.length
    errors := st.errors }

/-! ## Task layer (reader_api.py) -/

/-- `TaskStatus` enum. -/
inductive TaskStatus
  | pending
  | running
  | completed
  | failed
deriving DecidableEq

/-- One `TaskResult` record of `tasks_db`. -/
structure TaskResult where
  task_id : String
  status : TaskStatus
  folder_path : Option String
  documents : Option (List DocumentData)
  stats : Option StatsDict
  created_at : String
  completed_at : Option String
  error : Option String

/-- The PENDING record created by the `read_folder` endpoint
(reader_api.py lines 167-177). -/
def initial_task (task_id folder_path created_at : String) : TaskResult :=
  { task_id := task_id
    status := TaskStatus.pending
    folder_path := some folder_path
    documents := none
    stats := none
    created_at := created_at
    completed_at := none
    error := none }

/-- `process_folder_task` (reader_api.py lines 82-126) as a trace of the
successive `tasks_db[task_id]` record states, one entry per attribute
assignment (each Python assignment is atomic; any concurrent `getTask`
observes exactly one of these states).  The scan itself is passed in as its
outcome: `Except.ok` = `reader.scan_folder` returned, `Except.error` = it
raised.  Success path (lines 93, 112-115): RUNNING, then status COMPLETED,
then documents, then stats, then completed_at.  Failure path (lines 93,
124-126): RUNNING, then status FAILED, then error, then completed_at. -/
def process_folder_task_trace (t : TaskResult)
    (scanOutcome : Except String (List DocumentData × ScanState)) (now : String) :
    List TaskResult :=
  let t1 := { t with status := TaskStatus.running }
  match scanOutcome with
  | Except.ok r =>
    let t2 := { t1 with status := TaskStatus.completed }
    let t3 := { t2 with documents := some r.1 }
    let t4 := { t3 with stats := some (get_stats r.2) }
    let t5 := { t4 with completed_at := some now }
    [t, t1, t2, t3, t4, t5]
  | Except.error e =>
    let t2 := { t1 with status := TaskStatus.failed }
    let t3 := { t2 with error := some e }
    let t4 := { t3 with completed_at := some now }
    [t, t1, t2, t3, t4]

/-- The record state after `process_folder_task` has finished. -/
def process_folder_task (t : TaskResult)
    (scanOutcome : Except String (List DocumentData × ScanState)) (now : String) :
    TaskResult :=
  match scanOutcome with
  | Except.ok r =>
    { t with status := TaskStatus.completed
             documents := some r.1
             stats := some (get_stats r.2)
             completed_at := some now }
  | Except.error e =>
    { t with status := TaskStatus.failed
             error := some e
             completed_at := some now }

/-! ## Specification-side definitions -/

/-- Specification reading of the word count: the number of maximal
non-whitespace runs — count the positions whose character is non-whitespace
and is preceded by whitespace or by the start of the text. -/
def countRunsAux : Bool → List Char → Nat
  | _, [] => 0
  | prevWs, c :: cs =>
    (if prevWs && !isPyWs c then 1 else 0) + countRunsAux (isPyWs c) cs

/-- Number of maximal non-whitespace runs in a string. -/
def countRuns (s : String) : Nat := countRunsAux true s.data

/-! ## Concrete fixtures -/

/-- A small, well-formed PDF file. -/
def pdfFile : FileEntry :=
  { name := "paper.pdf", path := "/data/paper.pdf", size := 10, bytes := [],
    pdfText := Except.ok "hello" }

/-- A PDF file on which PyMuPDF raises. -/
def badPdf : FileEntry :=
  { name := "bad.pdf", path := "/data/bad.pdf", size := 5, bytes := [],
    pdfText := Except.error "cannot open broken xref" }

/-- A two-byte ASCII text file containing "hi". -/
def txtFile : FileEntry :=
  { name := "note.txt", path := "/data/note.txt", size := 2, bytes := [104, 105],
    pdfText := Except.ok "" }

/-- A text file whose name carries an uppercase extension. -/
def upperFile : FileEntry :=
  { name := "DOC.TXT", path := "/data/DOC.TXT", size := 3, bytes := [97, 98, 99],
    pdfText := Except.ok "" }

/-- A snapshot holding a single healthy PDF file. -/
def snapPdfOnly : Snapshot := { pathExists := true, isDir := true, files := [pdfFile] }

/-- A snapshot holding a single healthy text file. -/
def snapTxtOnly : Snapshot := { pathExists := true, isDir := true, files := [txtFile] }

/-- A snapshot for a path that does not exist. -/
def badSnap : Snapshot := { pathExists := false, isDir := false, files := [] }

/-- A freshly created PENDING task record. -/
def taskFix : TaskResult := initial_task "task-1" "/data" "2024-01-01T00:00:00"

end ZaiReader

namespace ZaiReader

/-! ## Helper lemmas -/

/-- Unfolding one step of the per-file loop. -/
theorem scanFiles_cons (hf : Bool) (mx : Nat) (enc : PyEncoding) (f : FileEntry)
    (l : List FileEntry) (acc : List DocumentData × ScanState) :
    scanFiles hf mx enc (f :: l) acc = scanFiles hf mx enc l (scanStep hf mx enc acc f) := rfl

/-- The per-file loop over a concatenation. -/
theorem scanFiles_append (hf : Bool) (mx : Nat) (enc : PyEncoding)
    (l1 l2 : List FileEntry) (acc : List DocumentData × ScanState) :
    scanFiles hf mx enc (l1 ++ l2) acc =
      scanFiles hf mx enc l2 (scanFiles hf mx enc l1 acc) := by
  simp [scanFiles, List.foldl_append]

/-- An oversized file is dropped by `_process_file` with `return None`. -/
theorem process_file_oversize (hf : Bool) (mx : Nat) (enc : PyEncoding) (f : FileEntry)
    (h : f.size > mx * 1024 * 1024) :
    process_file hf mx enc f = Except.ok none := by
  unfold process_file
  simp [h]

/-- A file on which `_process_file` returns `None` leaves the loop state
unchanged: no document, no error, no counter increment. -/
theorem scanStep_skip (hf : Bool) (mx : Nat) (enc : PyEncoding)
    (acc : List DocumentData × ScanState) (f : FileEntry)
    (h : process_file hf mx enc f = Except.ok none) :
    scanStep hf mx enc acc f = acc := by
  simp [scanStep, h]

/-- A successful `scan_folder` result is exactly the loop fold over the
enumerated candidates, started from the reset state. -/
theorem scan_folder_ok_inv (hf : Bool) (mx : Nat) (enc : PyEncoding) (snap : Snapshot)
    (fp : String) (docs : List DocumentData) (st : ScanState)
    (h : scan_folder hf mx enc snap fp = Except.ok (docs, st)) :
    (docs, st) = scanFiles hf mx enc (files_to_process snap.files)
      ([], { files_read := 0, errors := [] }) := by
  unfold scan_folder at h
  split at h
  · exact absurd h (by simp)
  · split at h
    · exact absurd h (by simp)
    · exact (Except.ok.inj h).symm

/-- Every document produced by `_process_file` records a size within the cap. -/
theorem process_file_ok_some_size (hf : Bool) (mx : Nat) (enc : PyEncoding)
    (f : FileEntry) (d : DocumentData)
    (h : process_file hf mx enc f = Except.ok (some d)) :
    d.file_size_bytes ≤ mx * 1024 * 1024 := by
  unfold process_file at h
  by_cases hs : f.size > mx * 1024 * 1024
  · simp [hs] at h
  · simp only [hs, if_false] at h
    have hle : f.size ≤ mx * 1024 * 1024 := by omega
    split at h
    · split at h
      · simp at h
      · split at h
        · simp only [Except.ok.injEq, Option.some.injEq] at h
          subst h
          simpa [mkDoc] using hle
        · simp at h
    · split at h
      · split at h
        · simp only [Except.ok.injEq, Option.some.injEq] at h
          subst h
          simpa [mkDoc] using hle
        · simp at h
      · simp at h

/-- Size bound carried through the whole loop. -/
theorem scanFiles_docs_size (hf : Bool) (mx : Nat) (enc : PyEncoding) :
    ∀ (l : List FileEntry) (acc : List DocumentData × ScanState),
      (∀ d ∈ acc.1, d.file_size_bytes ≤ mx * 1024 * 1024) →
      ∀ d ∈ (scanFiles hf mx enc l acc).1, d.file_size_bytes ≤ mx * 1024 * 1024 := by
  intro l
  induction l with
  | nil => intro acc hacc; simpa [scanFiles] using hacc
  | cons f fs ih =>
    intro acc hacc
    rw [scanFiles_cons]
    apply ih
    cases hpf : process_file hf mx enc f with
    | ok o =>
      cases o with
      | none => simpa [scanStep, hpf] using hacc
      | some d =>
        intro d' hd'
        simp only [scanStep, hpf, List.mem_append, List.mem_singleton] at hd'
        rcases hd' with h1 | h1
        · exact hacc d' h1
        · subst h1; exact process_file_ok_some_size hf mx enc f d' hpf
    | error e => simpa [scanStep, hpf] using hacc

/-- The loop increments `files_read` exactly when it appends a document. -/
theorem scanFiles_files_read (hf : Bool) (mx : Nat) (enc : PyEncoding) :
    ∀ (l : List FileEntry) (acc : List DocumentData × ScanState),
      (scanFiles hf mx enc l acc).2.files_read + acc.1.length =
        (scanFiles hf mx enc l acc).1.length + acc.2.files_read := by
  intro l
  induction l with
  | nil => intro acc; simp [scanFiles]; omega
  | cons f fs ih =>
    intro acc
    rw [scanFiles_cons]
    cases hpf : process_file hf mx enc f with
    | ok o =>
      cases o with
      | none => simpa [scanStep, hpf] using ih acc
      | some d =>
        have h2 := ih (acc.1 ++ [d], { acc.2 with files_read := acc.2.files_read + 1 })
        simp only [scanStep, hpf] at h2 ⊢
        simp only [List.length_append, List.length_singleton] at h2
        omega
    | error e =>
      have h2 := ih (acc.1, { acc.2 with errors := acc.2.errors ++
        ["Error processing " ++ f.name ++ ": " ++ e] })
      simp only [scanStep, hpf] at h2 ⊢
      omega

/-- The documents produced by the loop do not depend on the error state. -/
theorem scanFiles_docs_state_indep (hf : Bool) (mx : Nat) (enc : PyEncoding) :
    ∀ (l : List FileEntry) (ds : List DocumentData) (st st' : ScanState),
      (scanFiles hf mx enc l (ds, st)).1 = (scanFiles hf mx enc l (ds, st')).1 := by
  intro l
  induction l with
  | nil => intro ds st st'; rfl
  | cons f fs ih =>
    intro ds st st'
    rw [scanFiles_cons, scanFiles_cons]
    cases hpf : process_file hf mx enc f with
    | ok o =>
      cases o with
      | none => simpa [scanStep, hpf] using ih ds st st'
      | some d => simpa [scanStep, hpf] using ih (ds ++ [d]) _ _
    | error e => simpa [scanStep, hpf] using ih ds _ _

/-- Accumulated error messages survive the rest of the loop. -/
theorem scanFiles_errors_mono (hf : Bool) (mx : Nat) (enc : PyEncoding) :
    ∀ (l : List FileEntry) (acc : List DocumentData × ScanState) (m : String),
      m ∈ acc.2.errors → m ∈ (scanFiles hf mx enc l acc).2.errors := by
  intro l
  induction l with
  | nil => intro acc m hm; simpa [scanFiles] using hm
  | cons f fs ih =>
    intro acc m hm
    rw [scanFiles_cons]
    apply ih
    cases hpf : process_file hf mx enc f with
    | ok o =>
      cases o with
      | none => simpa [scanStep, hpf] using hm
      | some d => simpa [scanStep, hpf] using hm
    | error e =>
      simp only [scanStep, hpf, List.mem_append]
      exact Or.inl hm

/-- Length of the split word list, by the state of the accumulator. -/
theorem pySplitAux_length (cs : List Char) :
    ∀ cur : List Char,
      (pySplitAux cs cur).length =
        countRunsAux cur.isEmpty cs + (if cur.isEmpty then 0 else 1) := by
  induction cs with
  | nil =>
    intro cur
    cases cur <;> simp [pySplitAux, countRunsAux]
  | cons c cs ih =>
    intro cur
    by_cases hw : isPyWs c
    · cases cur with
      | nil => simpa [pySplitAux, countRunsAux, hw] using ih []
      | cons x xs =>
        simp only [pySplitAux, hw, if_true, countRunsAux, List.isEmpty_cons,
          List.length_cons, ih []]
        simp [hw]
    · cases cur with
      | nil =>
        have := ih [c]
        simp only [pySplitAux, hw, if_false, countRunsAux] at this ⊢
        simp only [List.isEmpty_nil, List.isEmpty_cons] at this ⊢
        simp [hw] at this ⊢
        omega
      | cons x xs =>
        have := ih (c :: x :: xs)
        simp only [pySplitAux, hw, if_false, countRunsAux] at this ⊢
        simp only [List.isEmpty_cons] at this ⊢
        simp [hw] at this ⊢
        omega

/-! ## Claim theorems -/

/-- Claim C9: for every extracted document the stored word count
(`len(text.split())`) equals the number of maximal non-whitespace runs of the
text, and for the text "a  b\tc\n" it equals 3. -/
theorem C9_word_count :
    (∀ s : String, pyWordCount s = countRuns s) ∧ pyWordCount "a  b\tc\n" = 3 := by
  constructor
  · intro s
    unfold pyWordCount pySplit countRuns
    rw [List.length_map, pySplitAux_length]
    simp
  · decide

/-- Claim C4: `_extract_plaintext` attempts the codecs in the exact order
caller-specified encoding, UTF-8, Latin-1, Windows-1252, returns the text of
the first codec that decodes without error, and when every attempt fails it
raises a decode error whose message names the file. -/
theorem C4_encoding_chain (enc : PyEncoding) (name : String) (bs : List Byte) :
    extract_plaintext enc name bs =
      match decodePy enc bs with
      | some t => Except.ok t
      | none =>
        match decodePy PyEncoding.utf8 bs with
        | some t => Except.ok t
        | none =>
          match decodePy PyEncoding.latin1 bs with
          | some t => Except.ok t
          | none =>
            match decodePy PyEncoding.cp1252 bs with
            | some t => Except.ok t
            | none => Except.error ("Unable to decode " ++ name) := by
  unfold extract_plaintext
  simp only [tryEncodings]
  cases decodePy enc bs <;> cases decodePy PyEncoding.utf8 bs <;>
    cases decodePy PyEncoding.latin1 bs <;> cases decodePy PyEncoding.cp1252 bs <;> rfl

/-- Claim C10: Latin-1 sits in the fallback chain and decodes every byte
sequence, so `_extract_plaintext` always returns text for a readable file and
its final raise is unreachable — a scan of readable plain-text files never
records a decode failure. -/
theorem C10_latin1_total (enc : PyEncoding) (name : String) (bs : List Byte) :
    ∃ t, extract_plaintext enc name bs = Except.ok t := by
  unfold extract_plaintext
  cases h1 : decodePy enc bs with
  | some t => exact ⟨t, by simp [tryEncodings, h1]⟩
  | none =>
    cases h2 : decodePy PyEncoding.utf8 bs with
    | some t => exact ⟨t, by simp [tryEncodings, h1, h2]⟩
    | none =>
      have h3 : decodePy PyEncoding.latin1 bs = some (latin1Decode bs) := rfl
      exact ⟨latin1Decode bs, by simp [tryEncodings, h1, h2, h3]⟩

/-- Claim C3, counterexample: `DOC.TXT` has the extension `.txt` when
compared case-insensitively, yet the enumeration of `scan_folder` (POSIX
`glob` with the literal patterns `**/*.txt`, `**/*.md`, `**/*.pdf`) does not
select it, so it is not a candidate for extraction as the claim states. -/
theorem C3_counterexample :
    endsWithExt (pyLower upperFile.name) ".txt" = true ∧
    files_to_process [upperFile] = [] := ⟨rfl, rfl⟩

/-- Claim C3, amended: `scan_folder` enumerates exactly the files under the
root whose name ends with one of the literal lowercase extensions `.txt`,
`.md`, `.pdf`; the comparison is case-sensitive, so `DOC.TXT` or `paper.PDF`
are not candidates. -/
theorem C3_amended (files : List FileEntry) (f : FileEntry) :
    f ∈ files_to_process files ↔
      f ∈ files ∧ (endsWithExt f.name ".txt" = true ∨ endsWithExt f.name ".md" = true ∨
        endsWithExt f.name ".pdf" = true) := by
  simp only [files_to_process, List.mem_append, List.mem_filter]
  tauto

/-- Claim C1, counterexample: with PDF support unavailable (`HAS_FITZ` false),
scanning a folder that contains one healthy, size-acceptable PDF yields no
document and an empty `stats.errors` — no "PDF support unavailable" record is
made, contradicting the claim. -/
theorem C1_counterexample :
    scan_folder false 50 PyEncoding.utf8 snapPdfOnly "/data" =
      Except.ok ([], { files_read := 0, errors := [] }) := rfl

/-- Claim C1, amended: if PDF support is unavailable, `_process_file` drops
every PDF file with `return None`, exactly like a size skip: the file yields
no document, no entry in `stats.errors`, and no counter change. -/
theorem C1_amended (max_file_size_mb : Nat) (enc : PyEncoding) (f : FileEntry)
    (h : pyLower (pySuffix f.name) = ".pdf") :
    process_file false max_file_size_mb enc f = Except.ok none ∧
    ∀ acc, scanStep false max_file_size_mb enc acc f = acc := by
  have hp : process_file false max_file_size_mb enc f = Except.ok none := by
    unfold process_file
    by_cases hs : f.size > max_file_size_mb * 1024 * 1024
    · simp [hs]
    · simp [hs, h]
  exact ⟨hp, fun acc => scanStep_skip _ _ _ _ _ hp⟩

/-- Claim C1, witness for the amended theorem at a concrete PDF file. -/
theorem C1_amended_witness :
    process_file false 50 PyEncoding.utf8 pdfFile = Except.ok none :=
  (C1_amended 50 PyEncoding.utf8 pdfFile rfl).1

/-- Claim C2, counterexample: on the success path `process_folder_task`
assigns `status = COMPLETED` before assigning `documents` and `stats`, so the
record state right after that assignment (index 2 of the trace) is observable
with a terminal status and `documents` still absent. -/
theorem C2_counterexample :
    ((process_folder_task_trace taskFix
          (Except.ok ([], { files_read := 0, errors := [] })) "2024-01-01T00:00:05").get? 2).map
        (fun r => (r.status, r.documents)) =
      some (TaskStatus.completed, (none : Option (List DocumentData))) := rfl

/-- Claim C2, amended: once `process_folder_task` has finished (the last
state of its trace), a COMPLETED task carries `documents` and `stats` and a
FAILED task carries `error`; the guarantee does not hold at intermediate
points of the runner's execution, since the terminal status is written before
the result fields. -/
theorem C2_amended (t : TaskResult) (outcome : Except String (List DocumentData × ScanState))
    (now : String) :
    ((process_folder_task t outcome now).status = TaskStatus.completed →
      (process_folder_task t outcome now).documents.isSome = true ∧
      (process_folder_task t outcome now).stats.isSome = true) ∧
    ((process_folder_task t outcome now).status = TaskStatus.failed →
      (process_folder_task t outcome now).error.isSome = true) ∧
    (process_folder_task_trace t outcome now).getLast? =
      some (process_folder_task t outcome now) := by
  cases outcome with
  | ok r =>
    refine ⟨fun _ => ⟨rfl, rfl⟩, fun hcon => ?_, rfl⟩
    simp [process_folder_task] at hcon
  | error e =>
    refine ⟨fun hcon => ?_, fun _ => rfl, rfl⟩
    simp [process_folder_task] at hcon

/-- Claim C2, witness for the amended theorem on both terminal paths. -/
theorem C2_amended_witness :
    (process_folder_task taskFix (Except.ok ([], { files_read := 0, errors := [] }))
        "2024-01-01T00:00:05").documents.isSome = true ∧
    (process_folder_task taskFix (Except.error "boom") "2024-01-01T00:00:05").error.isSome
      = true :=
  ⟨((C2_amended taskFix (Except.ok ([], { files_read := 0, errors := [] }))
      "2024-01-01T00:00:05").1 rfl).1,
    (C2_amended taskFix (Except.error "boom") "2024-01-01T00:00:05").2.1 rfl⟩

/-- Claim C6: a missing or non-directory root makes `scan_folder` raise a
path error before producing any document (no partial result), and the owning
task finishes FAILED with a descriptive error string, absent documents, and
`completed_at` set. -/
theorem C6_path_error (hasFitz : Bool) (max_file_size_mb : Nat) (enc : PyEncoding)
    (snap : Snapshot) (folder_path task_id created_at now : String)
    (h : snap.pathExists = false ∨ snap.isDir = false) :
    (∃ msg, scan_folder hasFitz max_file_size_mb enc snap folder_path = Except.error msg) ∧
    (process_folder_task (initial_task task_id folder_path created_at)
        (scan_folder hasFitz max_file_size_mb enc snap folder_path) now).status =
      TaskStatus.failed ∧
    (process_folder_task (initial_task task_id folder_path created_at)
        (scan_folder hasFitz max_file_size_mb enc snap folder_path) now).documents = none ∧
    (∃ msg, (process_folder_task (initial_task task_id folder_path created_at)
        (scan_folder hasFitz max_file_size_mb enc snap folder_path) now).error = some msg) ∧
    (process_folder_task (initial_task task_id folder_path created_at)
        (scan_folder hasFitz max_file_size_mb enc snap folder_path) now).completed_at =
      some now := by
  obtain ⟨msg, hmsg⟩ :
      ∃ msg, scan_folder hasFitz max_file_size_mb enc snap folder_path = Except.error msg := by
    unfold scan_folder
    rcases h with h | h
    · exact ⟨"Folder path does not exist: " ++ folder_path, by simp [h]⟩
    · by_cases hp : snap.pathExists = false
      · exact ⟨"Folder path does not exist: " ++ folder_path, by simp [hp]⟩
      · exact ⟨"Path is not a directory: " ++ folder_path, by simp [hp, h]⟩
  rw [hmsg]
  exact ⟨⟨msg, rfl⟩, rfl, rfl, ⟨msg, rfl⟩, rfl⟩

/-- Claim C6, witness at a nonexistent concrete path. -/
theorem C6_path_error_witness :
    (process_folder_task (initial_task "task-1" "/missing" "2024-01-01T00:00:00")
        (scan_folder true 50 PyEncoding.utf8 badSnap "/missing") "2024-01-01T00:00:05").status =
      TaskStatus.failed :=
  (C6_path_error true 50 PyEncoding.utf8 badSnap "/missing" "task-1" "2024-01-01T00:00:00"
    "2024-01-01T00:00:05" (Or.inl rfl)).2.1

/-- Claim C5: a file strictly exceeding the size cap is dropped silently:
`_process_file` returns `None` for it, the loop state is left unchanged (no
document, no `stats.errors` entry, no counter increment), and every document
a successful scan does return respects the cap. -/
theorem C5_size_skip (hasFitz : Bool) (max_file_size_mb : Nat) (enc : PyEncoding)
    (f : FileEntry) (h : f.size > max_file_size_mb * 1024 * 1024) :
    process_file hasFitz max_file_size_mb enc f = Except.ok none ∧
    (∀ acc, scanStep hasFitz max_file_size_mb enc acc f = acc) ∧
    (∀ snap folder_path docs st,
      scan_folder hasFitz max_file_size_mb enc snap folder_path = Except.ok (docs, st) →
      ∀ d ∈ docs, ¬ d.file_size_bytes > max_file_size_mb * 1024 * 1024) := by
  refine ⟨process_file_oversize _ _ _ _ h,
    fun acc => scanStep_skip _ _ _ _ _ (process_file_oversize _ _ _ _ h), ?_⟩
  intro snap folder_path docs st hscan d hd
  have hinv := scan_folder_ok_inv _ _ _ _ _ _ _ hscan
  have hdocs : docs = (scanFiles hasFitz max_file_size_mb enc
      (files_to_process snap.files) ([], { files_read := 0, errors := [] })).1 :=
    congrArg Prod.fst hinv
  have hsz := scanFiles_docs_size hasFitz max_file_size_mb enc
    (files_to_process snap.files) ([], { files_read := 0, errors := [] })
    (by intro d' hd'; simp at hd') d (hdocs ▸ hd)
  omega

/-- Claim C5, witness at a 60 MB file against a 50 MB cap. -/
theorem C5_size_skip_witness :
    process_file true 50 PyEncoding.utf8
      { name := "big.txt", path := "/data/big.txt", size := 60 * 1024 * 1024,
        bytes := [], pdfText := Except.ok "" } = Except.ok none :=
  (C5_size_skip true 50 PyEncoding.utf8
    { name := "big.txt", path := "/data/big.txt", size := 60 * 1024 * 1024,
      bytes := [], pdfText := Except.ok "" } (by norm_num)).1

/-- Claim C7: the failure of one file is non-fatal: the scan of the list with
the failing file returns exactly the documents of the scan without it, an
"Error processing <name>: <msg>" entry is recorded in the error list, and the
owning task of any scan over an existing directory still finishes COMPLETED. -/
theorem C7_nonfatal (hasFitz : Bool) (max_file_size_mb : Nat) (enc : PyEncoding)
    (xs ys : List FileEntry) (f : FileEntry) (e : String)
    (acc : List DocumentData × ScanState)
    (h : process_file hasFitz max_file_size_mb enc f = Except.error e) :
    (scanFiles hasFitz max_file_size_mb enc (xs ++ f :: ys) acc).1 =
      (scanFiles hasFitz max_file_size_mb enc (xs ++ ys) acc).1 ∧
    ("Error processing " ++ f.name ++ ": " ++ e) ∈
      (scanFiles hasFitz max_file_size_mb enc (xs ++ f :: ys) acc).2.errors ∧
    (∀ snap folder_path t now, snap.pathExists = true → snap.isDir = true →
      (process_folder_task t
        (scan_folder hasFitz max_file_size_mb enc snap folder_path) now).status =
        TaskStatus.completed) := by
  have hstep : ∀ a : List DocumentData × ScanState,
      scanStep hasFitz max_file_size_mb enc a f =
        (a.1, { a.2 with errors := a.2.errors ++ ["Error processing " ++ f.name ++ ": " ++ e] }) := by
    intro a
    simp [scanStep, h]
  have hsplit : scanFiles hasFitz max_file_size_mb enc (xs ++ f :: ys) acc =
      scanFiles hasFitz max_file_size_mb enc ys
        (scanStep hasFitz max_file_size_mb enc
          (scanFiles hasFitz max_file_size_mb enc xs acc) f) := by
    rw [scanFiles_append, scanFiles_cons]
  have hsplit2 : scanFiles hasFitz max_file_size_mb enc (xs ++ ys) acc =
      scanFiles hasFitz max_file_size_mb enc ys
        (scanFiles hasFitz max_file_size_mb enc xs acc) := scanFiles_append _ _ _ _ _ _
  refine ⟨?_, ?_, ?_⟩
  · rw [hsplit, hsplit2, hstep]
    have := scanFiles_docs_state_indep hasFitz max_file_size_mb enc ys
      (scanFiles hasFitz max_file_size_mb enc xs acc).1
      { (scanFiles hasFitz max_file_size_mb enc xs acc).2 with
        errors := (scanFiles hasFitz max_file_size_mb enc xs acc).2.errors ++
          ["Error processing " ++ f.name ++ ": " ++ e] }
      (scanFiles hasFitz max_file_size_mb enc xs acc).2
    exact this
  · rw [hsplit, hstep]
    apply scanFiles_errors_mono
    simp
  · intro snap folder_path t now hpe hid
    simp [scan_folder, hpe, hid, process_folder_task]

/-- Claim C7, witness: a broken PDF between no other files still yields its
error entry. -/
theorem C7_nonfatal_witness :
    ("Error processing " ++ "bad.pdf" ++ ": " ++ "cannot open broken xref") ∈
      (scanFiles true 50 PyEncoding.utf8 ([] ++ badPdf :: [])
        ([], { files_read := 0, errors := [] })).2.errors :=
  (C7_nonfatal true 50 PyEncoding.utf8 [] [] badPdf "cannot open broken xref"
    ([], { files_read := 0, errors := [] }) rfl).2.1

/-- Claim C8: after a scan returns normally, the retained statistics are
consistent: `errors_count` equals the length of the error list and
`files_read` equals the number of documents returned. -/
theorem C8_stats_consistent (hasFitz : Bool) (max_file_size_mb : Nat) (enc : PyEncoding)
    (snap : Snapshot) (folder_path : String) (docs : List DocumentData) (st : ScanState)
    (h : scan_folder hasFitz max_file_size_mb enc snap folder_path = Except.ok (docs, st)) :
    (get_stats st).errors_count = (get_stats st).errors.length ∧
    (get_stats st).files_read = docs.length := by
  have hinv := scan_folder_ok_inv _ _ _ _ _ _ _ h
  refine ⟨rfl, ?_⟩
  have hfr := scanFiles_files_read hasFitz max_file_size_mb enc
    (files_to_process snap.files) ([], { files_read := 0, errors := [] })
  have hdocs : docs = (scanFiles hasFitz max_file_size_mb enc
      (files_to_process snap.files) ([], { files_read := 0, errors := [] })).1 :=
    congrArg Prod.fst hinv
  have hst : st = (scanFiles hasFitz max_file_size_mb enc
      (files_to_process snap.files) ([], { files_read := 0, errors := [] })).2 :=
    congrArg Prod.snd hinv
  simp only [get_stats, hdocs, hst]
  simp at hfr
  omega

/-- Claim C8, witness at a one-file snapshot. -/
theorem C8_stats_consistent_witness :
    (get_stats { files_read := 1, errors := [] }).files_read =
      [mkDoc txtFile "hi"].length :=
  (C8_stats_consistent true 50 PyEncoding.utf8 snapTxtOnly "/data"
    [mkDoc txtFile "hi"] { files_read := 1, errors := [] } rfl).2

end ZaiReader
